import Mathlib

/-!
Verification of the valuescan trading core against its specification.

The definitions below are a shallow embedding of the Python sources:
  * `binance_trader/signal_aggregator.py` (signal store + confluence matcher),
  * `binance_trader/risk_manager.py` (risk gatekeeper),
  * `binance_trader/futures_trader.py` (execution engine fragments),
  * the trailing-stop tracker used by `binance_trader/futures_main.py`.

Conventions: `datetime` values are rationals (seconds since an arbitrary
epoch); the wall clock (`datetime.now()`) is passed explicitly as a `now`
argument; Python floats and `Decimal` values are modelled as exact
rationals; fallible lookups are `Option`.
-/

namespace ValueScan

/-! ## Signal aggregator (`signal_aggregator.py`) -/

/-- Embeds the `Signal` dataclass.  The raw payload dictionary is kept as an
opaque string since no operation inspects it. -/
structure Signal where
  signal_id : String
  symbol : String
  signal_type : String
  timestamp : ℚ
  message_type : ℤ
  data : String
deriving DecidableEq, Repr

/-- Embeds the `ConfluenceSignal` dataclass. -/
structure ConfluenceSignal where
  symbol : String
  fomo_signal : Signal
  alpha_signal : Signal
  confluence_time : ℚ
  time_gap : ℚ
  score : ℚ
deriving DecidableEq, Repr

/-- `SignalAggregator.FOMO_TYPE`. -/
def FOMO_TYPE : ℤ := 113

/-- `SignalAggregator.FOMO_INTENSIFY_TYPE`. -/
def FOMO_INTENSIFY_TYPE : ℤ := 112

/-- `SignalAggregator.ALPHA_TYPE`. -/
def ALPHA_TYPE : ℤ := 110

/-- The mutable state of a `SignalAggregator` instance.  The Python
per-symbol `defaultdict(list)` buckets are total functions from symbols to
lists (absent key = empty list); the processed-id `set` is kept in lockstep
with `processed_signal_order` by the code, so it is represented by the
members of that list. -/
structure SignalAggregator where
  time_window : ℚ
  min_score : ℚ
  fomo_signals : String → List Signal
  alpha_signals : String → List Signal
  risk_signals : String → List Signal
  confluence_signals : List ConfluenceSignal
  processed_signal_order : List String
  max_processed_ids : ℕ

/-- `SignalAggregator._get_signal_type`. -/
def getSignalType (message_type : ℤ) : Option String :=
  if message_type = ALPHA_TYPE then some "ALPHA"
  else if message_type = FOMO_TYPE then some "FOMO"
  else if message_type = FOMO_INTENSIFY_TYPE then some "RISK"
  else none

/-- `SignalAggregator._calculate_score`: weighted sum of time closeness,
FOMO strength and freshness.  `now` is the wall clock at match time. -/
def calculateScore (time_window : ℚ) (now : ℚ) (fomo alpha : Signal)
    (time_gap : ℚ) : ℚ :=
  let time_score := max 0 (min 1 (1 - time_gap / time_window))
  let fomo_strength : ℚ := if fomo.message_type = FOMO_INTENSIFY_TYPE then 1 else 0.8
  let avg_age := ((now - fomo.timestamp) + (now - alpha.timestamp)) / 2
  let freshness_score := 1 - min (avg_age / 3600) 1
  time_score * 0.4 + fomo_strength * 0.3 + freshness_score * 0.3

/-- Absolute time gap between a FOMO and an Alpha signal,
`abs((fomo.timestamp - alpha.timestamp).total_seconds())`. -/
def gapOf (fomo alpha : Signal) : ℚ :=
  |fomo.timestamp - alpha.timestamp|

/-- One step of the best-match scan in `_try_match_confluence`: the
accumulator holds the current best `(fomo, alpha, min_gap)` (with
`none` standing for `min_gap = inf`), and a candidate pair replaces it
exactly when its gap is inside the window and strictly smaller. -/
def bestStep (time_window : ℚ) :
    Option (Signal × Signal × ℚ) → Signal × Signal → Option (Signal × Signal × ℚ)
  | none, p =>
      if gapOf p.1 p.2 < time_window then some (p.1, p.2, gapOf p.1 p.2) else none
  | some best, p =>
      if gapOf p.1 p.2 < time_window ∧ gapOf p.1 p.2 < best.2.2 then
        some (p.1, p.2, gapOf p.1 p.2)
      else some best

/-- All `(fomo, alpha)` pairs in the nested iteration order of
`_try_match_confluence`. -/
def allPairs (fomo_list alpha_list : List Signal) : List (Signal × Signal) :=
  fomo_list.flatMap fun f => alpha_list.map fun a => (f, a)

/-- The double loop of `_try_match_confluence` selecting the best pair. -/
def bestMatch (time_window : ℚ) (pairs : List (Signal × Signal)) :
    Option (Signal × Signal × ℚ) :=
  pairs.foldl (bestStep time_window) none

/-- The pair (with its gap) that `_try_match_confluence` selects for a
symbol, before any score filtering. -/
def selectedPair (agg : SignalAggregator) (symbol : String) :
    Option (Signal × Signal × ℚ) :=
  bestMatch agg.time_window (allPairs (agg.fomo_signals symbol) (agg.alpha_signals symbol))

/-- Point update of a per-symbol bucket. -/
def updateBucket (f : String → List Signal) (symbol : String)
    (l : List Signal) : String → List Signal :=
  fun s => if s = symbol then l else f s

/-- `SignalAggregator._try_match_confluence`.  Returns the optional
confluence event together with the updated aggregator state (the Python
method mutates the per-symbol lists on success). -/
def tryMatchConfluence (agg : SignalAggregator) (now : ℚ) (symbol : String) :
    Option ConfluenceSignal × SignalAggregator :=
  let fomo_list := agg.fomo_signals symbol
  let alpha_list := agg.alpha_signals symbol
  if fomo_list.isEmpty ∨ alpha_list.isEmpty then (none, agg)
  else
    match bestMatch agg.time_window (allPairs fomo_list alpha_list) with
    | none => (none, agg)
    | some best =>
        let fomo_signal := best.1
        let alpha_signal := best.2.1
        let time_gap := best.2.2
        let score := calculateScore agg.time_window now fomo_signal alpha_signal time_gap
        if score < agg.min_score then (none, agg)
        else
          let confluence : ConfluenceSignal :=
            { symbol := symbol
              fomo_signal := fomo_signal
              alpha_signal := alpha_signal
              confluence_time := now
              time_gap := time_gap
              score := score }
          (some confluence,
            { agg with
                fomo_signals := updateBucket agg.fomo_signals symbol (fomo_list.erase fomo_signal)
                alpha_signals := updateBucket agg.alpha_signals symbol (alpha_list.erase alpha_signal) })

/-- `SignalAggregator._trim_processed_history`: drop the oldest entries so
that at most `max_processed_ids` remain. -/
def trimProcessedHistory (agg : SignalAggregator) : SignalAggregator :=
  { agg with
      processed_signal_order :=
        agg.processed_signal_order.drop
          (agg.processed_signal_order.length - agg.max_processed_ids) }

/-- `SignalAggregator._cleanup_expired_signals`: FOMO/Alpha signals older
than two window widths and risk signals older than 30 minutes are dropped. -/
def cleanupExpiredSignals (agg : SignalAggregator) (now : ℚ) : SignalAggregator :=
  let cutoff := now - agg.time_window * 2
  let risk_cutoff := now - 1800
  { agg with
      fomo_signals := fun s => (agg.fomo_signals s).filter fun sig => cutoff < sig.timestamp
      alpha_signals := fun s => (agg.alpha_signals s).filter fun sig => cutoff < sig.timestamp
      risk_signals := fun s => (agg.risk_signals s).filter fun sig => risk_cutoff < sig.timestamp }

/-- `SignalAggregator.add_signal`: dedup by id, classify, append to the
right bucket, record the id, trim history, sweep expired signals, then try
to match a confluence for the signal's symbol. -/
def addSignal (agg : SignalAggregator) (now : ℚ) (message_type : ℤ)
    (message_id : String) (symbol : String) (data : String) :
    Option ConfluenceSignal × SignalAggregator :=
  if message_id ∈ agg.processed_signal_order then (none, agg)
  else
    match getSignalType message_type with
    | none => (none, agg)
    | some signal_type =>
        let signal : Signal :=
          { signal_id := message_id
            symbol := symbol.toUpper
            signal_type := signal_type
            timestamp := now
            message_type := message_type
            data := data }
        let agg1 :=
          if signal_type = "FOMO" then
            { agg with fomo_signals := updateBucket agg.fomo_signals signal.symbol (agg.fomo_signals signal.symbol ++ [signal]) }
          else if signal_type = "ALPHA" then
            { agg with alpha_signals := updateBucket agg.alpha_signals signal.symbol (agg.alpha_signals signal.symbol ++ [signal]) }
          else
            { agg with risk_signals := updateBucket agg.risk_signals signal.symbol (agg.risk_signals signal.symbol ++ [signal]) }
        let agg2 :=
          { agg1 with processed_signal_order := agg1.processed_signal_order ++ [message_id] }
        let agg3 := trimProcessedHistory agg2
        let agg4 := cleanupExpiredSignals agg3 now
        let result := tryMatchConfluence agg4 now signal.symbol
        match result.1 with
        | some confluence =>
            (some confluence,
              { result.2 with confluence_signals := result.2.confluence_signals ++ [confluence] })
        | none => (none, result.2)

/-- `SignalAggregator.check_risk_signal`. -/
def checkRiskSignal (agg : SignalAggregator) (symbol : String) : Bool :=
  decide (0 < (agg.risk_signals symbol).length)

/-! ## Risk manager (`risk_manager.py`) -/

/-- Embeds the `PositionInfo` dataclass of `risk_manager.py`. -/
structure PositionInfo where
  symbol : String
  quantity : ℚ
  entry_price : ℚ
  current_price : ℚ
  entry_time : ℚ
  unrealized_pnl : ℚ := 0
  unrealized_pnl_percent : ℚ := 0
deriving DecidableEq, Repr

/-- Embeds the `TradeRecommendation` dataclass. -/
structure TradeRecommendation where
  symbol : String
  action : String
  quantity : ℚ := 0
  stop_loss : ℚ := 0
  take_profit_1 : ℚ := 0
  take_profit_2 : ℚ := 0
  reason : String := ""
  risk_level : String := "MEDIUM"
deriving DecidableEq, Repr

/-- The mutable state of a `RiskManager` instance.  `positions` is the
dict keyed by symbol (an association list); the per-day counters are total
functions from date strings, with the current date passed explicitly as
`today` where the Python code calls `datetime.now().strftime`. -/
structure RiskManager where
  max_position_percent : ℚ
  max_total_position_percent : ℚ
  max_daily_trades : ℕ
  max_daily_loss_percent : ℚ
  stop_loss_percent : ℚ
  take_profit_1_percent : ℚ
  take_profit_2_percent : ℚ
  positions : List (String × PositionInfo)
  total_balance : ℚ
  available_balance : ℚ
  daily_trades : String → ℕ
  daily_pnl : String → ℚ
  trading_enabled : Bool
  halt_reason : String

/-- `RiskManager.halt_trading`. -/
def haltTrading (rm : RiskManager) (reason : String) : RiskManager :=
  { rm with trading_enabled := false, halt_reason := reason }

/-- `RiskManager.resume_trading`. -/
def resumeTrading (rm : RiskManager) : RiskManager :=
  { rm with trading_enabled := true, halt_reason := "" }

/-- The sum over `self.positions.values()` of `quantity * current_price`. -/
def totalPositionValue (rm : RiskManager) : ℚ :=
  (rm.positions.map fun p => p.2.quantity * p.2.current_price).sum

/-- Reason string of check 4 of `can_open_position` (numeric formatting of
the Python f-string is abstracted by `toString`). -/
def dailyLossReason (rm : RiskManager) : String :=
  "达到每日亏损限制 (" ++ toString rm.max_daily_loss_percent ++ "%)"

/-- `RiskManager.can_open_position`: the seven checks in source order; the
first failing check returns `(false, reason)`.  A breached daily-loss
limit additionally halts trading, so the (possibly updated) manager state
is returned alongside the verdict. -/
def canOpenPosition (rm : RiskManager) (today symbol : String) :
    (Bool × String) × RiskManager :=
  if rm.trading_enabled = false then
    ((false, "交易已暂停: " ++ rm.halt_reason), rm)
  else if (rm.positions.lookup symbol).isSome then
    ((false, "已持有 " ++ symbol ++ " 仓位"), rm)
  else if rm.max_daily_trades ≤ rm.daily_trades today then
    ((false, "达到每日交易次数限制 (" ++ toString rm.max_daily_trades ++ ")"), rm)
  else if rm.daily_pnl today < -(rm.total_balance * rm.max_daily_loss_percent / 100) then
    ((false, dailyLossReason rm), haltTrading rm (dailyLossReason rm))
  else if rm.total_balance ≤ 0 then
    ((false, "账户余额不可用"), rm)
  else if rm.max_total_position_percent ≤ totalPositionValue rm / rm.total_balance * 100 then
    ((false, "达到总仓位限制 (" ++ toString (totalPositionValue rm / rm.total_balance * 100) ++ "% >= " ++ toString rm.max_total_position_percent ++ "%)"), rm)
  else if rm.available_balance < rm.total_balance * 0.05 then
    ((false, "可用余额不足"), rm)
  else
    ((true, "OK"), rm)

/-- `RiskManager.calculate_position_size`. -/
def calculatePositionSize (rm : RiskManager) (current_price : ℚ) : ℚ :=
  let max_position_value := rm.total_balance * (rm.max_position_percent / 100)
  let max_position_value := min max_position_value rm.available_balance
  let quantity := max_position_value / current_price
  quantity * 0.999

/-- `RiskManager.generate_trade_recommendation` (score formatting of the
reason f-string is abstracted by `toString`). -/
def generateTradeRecommendation (rm : RiskManager) (today symbol : String)
    (current_price signal_score : ℚ) : TradeRecommendation × RiskManager :=
  match canOpenPosition rm today symbol with
  | ((can_trade, reason), rm1) =>
      if can_trade = false then
        ({ symbol := symbol, action := "SKIP", reason := reason }, rm1)
      else
        let quantity := calculatePositionSize rm1 current_price * (0.5 + 0.5 * signal_score)
        let stop_loss := current_price * (1 - rm1.stop_loss_percent / 100)
        let take_profit_1 := current_price * (1 + rm1.take_profit_1_percent / 100)
        let take_profit_2 := current_price * (1 + rm1.take_profit_2_percent / 100)
        let risk_level :=
          if 0.8 ≤ signal_score then "LOW"
          else if 0.6 ≤ signal_score then "MEDIUM"
          else "HIGH"
        ({ symbol := symbol
           action := "BUY"
           quantity := quantity
           stop_loss := stop_loss
           take_profit_1 := take_profit_1
           take_profit_2 := take_profit_2
           reason := "信号评分: " ++ toString signal_score
           risk_level := risk_level }, rm1)

/-! ## Execution engine fragments (`futures_trader.py`) -/

/-- Rounding direction of `_round_to_step` (`"down"` maps to decimal
`ROUND_DOWN`, anything else to `ROUND_UP`). -/
inductive RoundingDirection where
  | down
  | up
deriving DecidableEq, Repr

/-- Truncation toward zero, the semantics of decimal `ROUND_DOWN`. -/
def ratTruncToZero (q : ℚ) : ℤ :=
  if 0 ≤ q then ⌊q⌋ else ⌈q⌉

/-- Rounding away from zero, the semantics of decimal `ROUND_UP`. -/
def ratAwayFromZero (q : ℚ) : ℤ :=
  if 0 ≤ q then ⌈q⌉ else ⌊q⌋

/-- `BinanceFuturesTrader._round_to_step`.  `Decimal(str(...))` arithmetic
is exact on the decimal inputs the venue supplies, so it is embedded as
exact rational arithmetic; `quantize` and the final `float` conversion do
not change the represented value. -/
def roundToStep (value step : ℚ) (rounding : RoundingDirection) : ℚ :=
  if step ≤ 0 then value
  else
    let ratio := value / step
    let floored : ℤ :=
      match rounding with
      | .down => ratTruncToZero ratio
      | .up => ratAwayFromZero ratio
    (floored : ℚ) * step

/-- A venue order record as used by `open_long_position`: the fields read
from the order dict, with `none` standing for an absent (or empty) value.
Quantity strings are modelled by their numeric value. -/
structure FuturesOrder where
  orderId : String
  status : String
  executedQty : Option ℚ
  origQty : Option ℚ
deriving DecidableEq, Repr

/-- `float(order.get('executedQty') or order.get('origQty') or 0)` — a
present `executedQty` string wins even when it parses to `0`; otherwise
`origQty`, otherwise `0`. -/
def executedQuantity (order : FuturesOrder) : ℚ :=
  match order.executedQty with
  | some q => q
  | none =>
      match order.origQty with
      | some q => q
      | none => 0

/-- The quantity `open_long_position` records in the risk manager:
`executed_quantity or quantity`, i.e. the parsed executed quantity when it
is nonzero (Python truthiness), else the locally requested quantity. -/
def recordedPositionQuantity (order : FuturesOrder) (requested : ℚ) : ℚ :=
  if executedQuantity order = 0 then requested else executedQuantity order

/-- Outcome of one `futures_create_order` attempt: success with the order
dict, a timeout-class `BinanceAPIException` (`code == -1007` or a message
containing "Timeout"), or any other error. -/
inductive OrderAttemptResult where
  | success (order : FuturesOrder)
  | timeoutError
  | otherError
deriving DecidableEq, Repr

/-- The virtual order dict `open_long_position` builds from an observed
live position after a final timeout. -/
def synthesizedTimeoutOrder (positionQty requestedQty : ℚ) : FuturesOrder :=
  { orderId := "UNKNOWN_TIMEOUT"
    status := "FILLED"
    executedQty := some positionQty
    origQty := some requestedQty }

/-- The market-buy retry loop of `open_long_position`
(`max_order_retries = 2`): the first timeout retries once; a timeout on
the final attempt queries the live position (`livePositionQty`, `none`
when no nonzero position is reported) and synthesizes a filled order when
a positive position exists; any non-timeout error aborts immediately
(`none` models the re-raised exception / failed open). -/
def placeMarketBuyWithRetry (attempt1 attempt2 : OrderAttemptResult)
    (livePositionQty : Option ℚ) (requestedQty : ℚ) : Option FuturesOrder :=
  match attempt1 with
  | .success o => some o
  | .otherError => none
  | .timeoutError =>
      match attempt2 with
      | .success o => some o
      | .otherError => none
      | .timeoutError =>
          match livePositionQty with
          | some q => if 0 < q then some (synthesizedTimeoutOrder q requestedQty) else none
          | none => none

/-! ## Trailing-stop tracker -/

/-- Modelled from the spec: `binance_trader/trailing_stop.py` (class
`TrailingStopManager`, imported by `futures_main.py`) is not among the
source files, so the per-symbol tracker state follows spec section 4.5:
high-water price, armed flag and current trailing price. -/
structure TrailingStopState where
  entry_price : ℚ
  highest_price : ℚ
  activated : Bool
  trailing_price : ℚ
deriving DecidableEq, Repr

/-- Modelled from the spec: activation threshold and callback, both in
percent, as configured in `futures_main.py`. -/
structure TrailingStopParams where
  activation_percent : ℚ
  callback_percent : ℚ
deriving DecidableEq, Repr

/-- Modelled from the spec: `TrailingStopManager.add_position(symbol,
entry_price, current_price)` starts an un-armed tracker. -/
def trailingAddPosition (entry_price current_price : ℚ) : TrailingStopState :=
  { entry_price := entry_price
    highest_price := current_price
    activated := false
    trailing_price := 0 }

/-- Modelled from the spec: `TrailingStopManager.update_price` — update
the high-water price on a new high; arm once the unrealized gain reaches
the activation threshold, setting trailing price to
`high_water * (1 - callback/100)`; while armed the trailing price only
ratchets upward; return whether the price fell to or below the trailing
price (the close trigger). -/
def trailingUpdatePrice (p : TrailingStopParams) (st : TrailingStopState)
    (price : ℚ) : TrailingStopState × Bool :=
  let high := max st.highest_price price
  if st.activated then
    let trailing := max st.trailing_price (high * (1 - p.callback_percent / 100))
    (⟨st.entry_price, high, true, trailing⟩, decide (price ≤ trailing))
  else
    let gain_percent := (price - st.entry_price) / st.entry_price * 100
    if p.activation_percent ≤ gain_percent then
      let trailing := high * (1 - p.callback_percent / 100)
      (⟨st.entry_price, high, true, trailing⟩, decide (price ≤ trailing))
    else
      (⟨st.entry_price, high, false, st.trailing_price⟩, false)

/-! ## Helper lemmas about the best-match scan -/

theorem mem_allPairs {fomo_list alpha_list : List Signal} {f a : Signal} :
    (f, a) ∈ allPairs fomo_list alpha_list ↔ f ∈ fomo_list ∧ a ∈ alpha_list := by
  simp only [allPairs, List.mem_flatMap, List.mem_map, Prod.mk.injEq]
  constructor
  · rintro ⟨f0, hf0, a0, ha0, hfa, haa⟩
    exact ⟨hfa ▸ hf0, haa ▸ ha0⟩
  · rintro ⟨hf, ha⟩
    exact ⟨f, hf, a, ha, rfl, rfl⟩

theorem allPairs_eq_nil_of_empty {fomo_list alpha_list : List Signal}
    (h : fomo_list.isEmpty ∨ alpha_list.isEmpty) :
    allPairs fomo_list alpha_list = [] := by
  rcases h with h | h
  · rw [List.isEmpty_iff] at h
    simp [allPairs, h]
  · rw [List.isEmpty_iff] at h
    simp [allPairs, h]

/-- Case analysis on one `bestStep`: the produced best is either the new
pair (inside the window, with its own gap) or the unchanged accumulator. -/
theorem bestStep_cases (w : ℚ) (acc : Option (Signal × Signal × ℚ))
    (p : Signal × Signal) (f0 a0 : Signal) (g0 : ℚ)
    (h : bestStep w acc p = some (f0, a0, g0)) :
    ((f0, a0) = p ∧ g0 = gapOf p.1 p.2 ∧ g0 < w) ∨ acc = some (f0, a0, g0) := by
  rcases acc with _ | ⟨⟨fb, ab, gb⟩⟩
  · simp only [bestStep] at h
    by_cases hlt : gapOf p.1 p.2 < w
    · rw [if_pos hlt] at h
      have e := Option.some.inj h
      have e1 : p.1 = f0 := congrArg Prod.fst e
      have e2 : p.2 = a0 := congrArg (fun x => x.2.1) e
      have e3 : gapOf p.1 p.2 = g0 := congrArg (fun x => x.2.2) e
      exact Or.inl ⟨by rw [← e1, ← e2], e3.symm, e3 ▸ hlt⟩
    · rw [if_neg hlt] at h
      exact absurd h (by simp)
  · simp only [bestStep] at h
    by_cases hc : gapOf p.1 p.2 < w ∧ gapOf p.1 p.2 < gb
    · rw [if_pos hc] at h
      have e := Option.some.inj h
      have e1 : p.1 = f0 := congrArg Prod.fst e
      have e2 : p.2 = a0 := congrArg (fun x => x.2.1) e
      have e3 : gapOf p.1 p.2 = g0 := congrArg (fun x => x.2.2) e
      exact Or.inl ⟨by rw [← e1, ← e2], e3.symm, e3 ▸ hc.1⟩
    · rw [if_neg hc] at h
      exact Or.inr h

theorem foldl_bestStep_some (w : ℚ) :
    ∀ (l : List (Signal × Signal)) (acc : Option (Signal × Signal × ℚ))
      (f a : Signal) (g : ℚ),
      (∀ f0 a0 g0, acc = some (f0, a0, g0) → g0 = gapOf f0 a0 ∧ g0 < w) →
      l.foldl (bestStep w) acc = some (f, a, g) →
      g = gapOf f a ∧ g < w ∧ ((f, a) ∈ l ∨ acc = some (f, a, g)) := by
  intro l
  induction l with
  | nil =>
      intro acc f a g hinv h
      simp only [List.foldl_nil] at h
      obtain ⟨h1, h2⟩ := hinv f a g h
      exact ⟨h1, h2, Or.inr h⟩
  | cons p t ih =>
      intro acc f a g hinv h
      simp only [List.foldl_cons] at h
      have hinv2 : ∀ f0 a0 g0, bestStep w acc p = some (f0, a0, g0) →
          g0 = gapOf f0 a0 ∧ g0 < w := by
        intro f0 a0 g0 hstep
        rcases bestStep_cases w acc p f0 a0 g0 hstep with ⟨hp, hg, hgw⟩ | hkeep
        · refine ⟨?_, hgw⟩
          rw [hg, ← hp]
        · exact hinv f0 a0 g0 hkeep
      obtain ⟨h1, h2, h3⟩ := ih (bestStep w acc p) f a g hinv2 h
      refine ⟨h1, h2, ?_⟩
      rcases h3 with hmem | hacc2
      · exact Or.inl (List.mem_cons_of_mem p hmem)
      · rcases bestStep_cases w acc p f a g hacc2 with ⟨hp, _, _⟩ | hkeep
        · exact Or.inl (hp ▸ List.mem_cons_self p t)
        · exact Or.inr hkeep

theorem foldl_bestStep_min (w : ℚ) :
    ∀ (l : List (Signal × Signal)) (acc : Option (Signal × Signal × ℚ))
      (f a : Signal) (g : ℚ),
      l.foldl (bestStep w) acc = some (f, a, g) →
      (∀ p ∈ l, gapOf p.1 p.2 < w → g ≤ gapOf p.1 p.2) ∧
      (∀ f0 a0 g0, acc = some (f0, a0, g0) → g ≤ g0) := by
  intro l
  induction l with
  | nil =>
      intro acc f a g h
      simp only [List.foldl_nil] at h
      refine ⟨by simp, ?_⟩
      intro f0 a0 g0 hacc
      rw [hacc] at h
      have := congrArg (fun x => (Option.getD x (f, a, g)).2.2) h
      simp at this
      rw [this]
  | cons p t ih =>
      intro acc f a g h
      simp only [List.foldl_cons] at h
      obtain ⟨iht, ihacc⟩ := ih (bestStep w acc p) f a g h
      constructor
      · intro q hq hqw
        rcases List.mem_cons.mp hq with hq | hq
        · subst hq
          rcases hacc : acc with _ | ⟨⟨fb, ab, gb⟩⟩
          · have hstep : bestStep w acc q = some (q.1, q.2, gapOf q.1 q.2) := by
              rw [hacc]; simp only [bestStep]; rw [if_pos hqw]
            exact ihacc q.1 q.2 (gapOf q.1 q.2) hstep
          · by_cases hc : gapOf q.1 q.2 < w ∧ gapOf q.1 q.2 < gb
            · have hstep : bestStep w acc q = some (q.1, q.2, gapOf q.1 q.2) := by
                rw [hacc]; simp only [bestStep]; rw [if_pos hc]
              exact ihacc q.1 q.2 (gapOf q.1 q.2) hstep
            · have hstep : bestStep w acc q = some (fb, ab, gb) := by
                rw [hacc]; simp only [bestStep]; rw [if_neg hc]
              have hgb : g ≤ gb := ihacc fb ab gb hstep
              have : ¬ gapOf q.1 q.2 < gb := fun hlt => hc ⟨hqw, hlt⟩
              exact hgb.trans (not_lt.mp this)
        · exact iht q hq hqw
      · intro f0 a0 g0 hacc
        by_cases hc : gapOf p.1 p.2 < w ∧ gapOf p.1 p.2 < g0
        · have hstep : bestStep w acc p = some (p.1, p.2, gapOf p.1 p.2) := by
            rw [hacc]; simp only [bestStep]; rw [if_pos hc]
          exact (ihacc p.1 p.2 (gapOf p.1 p.2) hstep).trans hc.2.le
        · have hstep : bestStep w acc p = some (f0, a0, g0) := by
            rw [hacc]; simp only [bestStep]; rw [if_neg hc]
          exact ihacc f0 a0 g0 hstep

theorem foldl_bestStep_none (w : ℚ) :
    ∀ (l : List (Signal × Signal)) (acc : Option (Signal × Signal × ℚ)),
      l.foldl (bestStep w) acc = none ↔
        (acc = none ∧ ∀ p ∈ l, ¬ gapOf p.1 p.2 < w) := by
  intro l
  induction l with
  | nil =>
      intro acc
      simp
  | cons p t ih =>
      intro acc
      simp only [List.foldl_cons]
      rw [ih (bestStep w acc p)]
      constructor
      · rintro ⟨hstep, ht⟩
        rcases hacc : acc with _ | ⟨⟨fb, ab, gb⟩⟩
        · refine ⟨rfl, ?_⟩
          intro q hq
          rcases List.mem_cons.mp hq with hq | hq
          · subst hq
            intro hlt
            rw [hacc] at hstep
            simp only [bestStep] at hstep
            rw [if_pos hlt] at hstep
            exact absurd hstep (by simp)
          · exact ht q hq
        · exfalso
          rw [hacc] at hstep
          simp only [bestStep] at hstep
          by_cases hc : gapOf p.1 p.2 < w ∧ gapOf p.1 p.2 < gb
          · rw [if_pos hc] at hstep
            exact absurd hstep (by simp)
          · rw [if_neg hc] at hstep
            exact absurd hstep (by simp)
      · rintro ⟨hacc, hall⟩
        subst hacc
        have hp : ¬ gapOf p.1 p.2 < w := hall p (List.mem_cons_self p t)
        refine ⟨?_, fun q hq => hall q (List.mem_cons_of_mem p hq)⟩
        simp only [bestStep]
        rw [if_neg hp]

/-- The pair selected by the scan is a genuinely stored pair, its recorded
gap is the pair's gap, and that gap lies strictly inside the window. -/
theorem selectedPair_some_mem (agg : SignalAggregator) (symbol : String)
    (f a : Signal) (g : ℚ) (h : selectedPair agg symbol = some (f, a, g)) :
    g = gapOf f a ∧ g < agg.time_window ∧
      f ∈ agg.fomo_signals symbol ∧ a ∈ agg.alpha_signals symbol := by
  simp only [selectedPair, bestMatch] at h
  obtain ⟨h1, h2, h3⟩ :=
    foldl_bestStep_some agg.time_window
      (allPairs (agg.fomo_signals symbol) (agg.alpha_signals symbol)) none f a g
      (by simp) h
  rcases h3 with h3 | h3
  · obtain ⟨hf, ha⟩ := mem_allPairs.mp h3
    exact ⟨h1, h2, hf, ha⟩
  · exact absurd h3 (by simp)

/-- The selected gap is a lower bound on the gap of every stored pair. -/
theorem selectedPair_some_min (agg : SignalAggregator) (symbol : String)
    (f a : Signal) (g : ℚ) (h : selectedPair agg symbol = some (f, a, g)) :
    ∀ p ∈ allPairs (agg.fomo_signals symbol) (agg.alpha_signals symbol),
      g ≤ gapOf p.1 p.2 := by
  have hw := (selectedPair_some_mem agg symbol f a g h).2.1
  simp only [selectedPair, bestMatch] at h
  obtain ⟨hmin, _⟩ :=
    foldl_bestStep_min agg.time_window
      (allPairs (agg.fomo_signals symbol) (agg.alpha_signals symbol)) none f a g h
  intro p hp
  by_cases hpw : gapOf p.1 p.2 < agg.time_window
  · exact hmin p hp hpw
  · exact (hw.trans_le (not_lt.mp hpw)).le

/-- No pair is selected exactly when no stored pair lies strictly inside
the window. -/
theorem selectedPair_none_iff (agg : SignalAggregator) (symbol : String) :
    selectedPair agg symbol = none ↔
      ∀ p ∈ allPairs (agg.fomo_signals symbol) (agg.alpha_signals symbol),
        ¬ gapOf p.1 p.2 < agg.time_window := by
  simp only [selectedPair, bestMatch]
  rw [foldl_bestStep_none]
  simp

theorem tryMatch_of_empty (agg : SignalAggregator) (now : ℚ) (symbol : String)
    (h : (agg.fomo_signals symbol).isEmpty ∨ (agg.alpha_signals symbol).isEmpty) :
    tryMatchConfluence agg now symbol = (none, agg) := by
  simp only [tryMatchConfluence]
  rw [if_pos h]

theorem tryMatch_of_selected_none (agg : SignalAggregator) (now : ℚ) (symbol : String)
    (h : selectedPair agg symbol = none) :
    tryMatchConfluence agg now symbol = (none, agg) := by
  by_cases hE : (agg.fomo_signals symbol).isEmpty ∨ (agg.alpha_signals symbol).isEmpty
  · exact tryMatch_of_empty agg now symbol hE
  · simp only [tryMatchConfluence]
    rw [if_neg hE]
    simp only [selectedPair] at h
    rw [h]

/-- Non-emptiness of both buckets, from a selected pair. -/
theorem not_empty_of_selected (agg : SignalAggregator) (symbol : String)
    (f a : Signal) (g : ℚ) (h : selectedPair agg symbol = some (f, a, g)) :
    ¬ ((agg.fomo_signals symbol).isEmpty ∨ (agg.alpha_signals symbol).isEmpty) := by
  obtain ⟨-, -, hf, ha⟩ := selectedPair_some_mem agg symbol f a g h
  rintro (hE | hE)
  · rw [List.isEmpty_iff] at hE
    rw [hE] at hf
    exact absurd hf (List.not_mem_nil f)
  · rw [List.isEmpty_iff] at hE
    rw [hE] at ha
    exact absurd ha (List.not_mem_nil a)

/-- When the selected pair scores below the threshold the matcher returns
nothing and consumes nothing. -/
theorem tryMatch_of_selected_some_lt (agg : SignalAggregator) (now : ℚ)
    (symbol : String) (f a : Signal) (g : ℚ)
    (hsel : selectedPair agg symbol = some (f, a, g))
    (hscore : calculateScore agg.time_window now f a g < agg.min_score) :
    tryMatchConfluence agg now symbol = (none, agg) := by
  have hE := not_empty_of_selected agg symbol f a g hsel
  simp only [tryMatchConfluence]
  rw [if_neg hE]
  simp only [selectedPair] at hsel
  rw [hsel]
  simp [hscore]

/-- When the selected pair scores at or above the threshold the matcher
returns the confluence event and erases both constituents. -/
theorem tryMatch_of_selected_some_ge (agg : SignalAggregator) (now : ℚ)
    (symbol : String) (f a : Signal) (g : ℚ)
    (hsel : selectedPair agg symbol = some (f, a, g))
    (hscore : ¬ calculateScore agg.time_window now f a g < agg.min_score) :
    tryMatchConfluence agg now symbol =
      (some { symbol := symbol
              fomo_signal := f
              alpha_signal := a
              confluence_time := now
              time_gap := g
              score := calculateScore agg.time_window now f a g },
        { agg with
            fomo_signals := updateBucket agg.fomo_signals symbol ((agg.fomo_signals symbol).erase f)
            alpha_signals := updateBucket agg.alpha_signals symbol ((agg.alpha_signals symbol).erase a) }) := by
  have hE := not_empty_of_selected agg symbol f a g hsel
  simp only [tryMatchConfluence]
  rw [if_neg hE]
  simp only [selectedPair] at hsel
  rw [hsel]
  simp [hscore]

/-! ## Demonstration states used by the witnesses -/

/-- A FOMO signal for the C1 scenario. -/
def demoFomoC1 : Signal :=
  { signal_id := "m1", symbol := "BTC", signal_type := "FOMO",
    timestamp := 100, message_type := 113, data := "" }

/-- An Alpha signal for the C1 scenario. -/
def demoAlphaC1 : Signal :=
  { signal_id := "m2", symbol := "BTC", signal_type := "ALPHA",
    timestamp := 100, message_type := 110, data := "" }

/-- Aggregator holding exactly one matching high-score pair for "BTC". -/
def demoAggC1 : SignalAggregator :=
  { time_window := 300, min_score := 0.6,
    fomo_signals := fun s => if s = "BTC" then [demoFomoC1] else [],
    alpha_signals := fun s => if s = "BTC" then [demoAlphaC1] else [],
    risk_signals := fun _ => [],
    confluence_signals := [],
    processed_signal_order := ["m1", "m2"],
    max_processed_ids := 5000 }

/-- A stale FOMO signal whose best pairing scores below the threshold. -/
def demoFomoLow : Signal :=
  { signal_id := "m3", symbol := "BTC", signal_type := "FOMO",
    timestamp := 0, message_type := 113, data := "" }

/-- A stale Alpha signal 250 seconds apart from `demoFomoLow`. -/
def demoAlphaLow : Signal :=
  { signal_id := "m4", symbol := "BTC", signal_type := "ALPHA",
    timestamp := 250, message_type := 110, data := "" }

/-- Aggregator whose selected pair is inside the window but, evaluated
long after the signals arrived, scores below `min_score`. -/
def demoAggLow : SignalAggregator :=
  { time_window := 300, min_score := 0.6,
    fomo_signals := fun s => if s = "BTC" then [demoFomoLow] else [],
    alpha_signals := fun s => if s = "BTC" then [demoAlphaLow] else [],
    risk_signals := fun _ => [],
    confluence_signals := [],
    processed_signal_order := ["m3", "m4"],
    max_processed_ids := 5000 }

/-- An Alpha signal 350 seconds away from `demoFomoC1` (outside a
300-second window). -/
def demoAlphaFar : Signal :=
  { signal_id := "m5", symbol := "BTC", signal_type := "ALPHA",
    timestamp := 450, message_type := 110, data := "" }

/-- Aggregator storing one in-window pair and one out-of-window Alpha
signal for "BTC". -/
def demoAggC2 : SignalAggregator :=
  { time_window := 300, min_score := 0.6,
    fomo_signals := fun s => if s = "BTC" then [demoFomoC1] else [],
    alpha_signals := fun s => if s = "BTC" then [demoAlphaC1, demoAlphaFar] else [],
    risk_signals := fun _ => [],
    confluence_signals := [],
    processed_signal_order := ["m1", "m2", "m5"],
    max_processed_ids := 5000 }

/-! ## Claims C1 - C3: confluence matcher and dedup -/

/-- Claim C1: a match attempt returns a ConfluenceEvent exactly when the
deterministically selected stored pair — which realizes the smallest time
gap over all stored pairs and lies strictly inside the window — scores at
least `min_score`; on such a return both constituent signals are removed
from the per-symbol lists (so with a singleton pair a subsequent match
attempt returns none), and when the selected pair scores below `min_score`
nothing is returned and nothing is consumed. -/
theorem confluence_match_consume_spec (agg : SignalAggregator) (now : ℚ)
    (symbol : String) :
    ((tryMatchConfluence agg now symbol).1.isSome ↔
      ∃ f a g, selectedPair agg symbol = some (f, a, g) ∧
        agg.min_score ≤ calculateScore agg.time_window now f a g) ∧
    (∀ f a g, selectedPair agg symbol = some (f, a, g) →
      g = gapOf f a ∧ g < agg.time_window ∧
        (f, a) ∈ allPairs (agg.fomo_signals symbol) (agg.alpha_signals symbol) ∧
        ∀ p ∈ allPairs (agg.fomo_signals symbol) (agg.alpha_signals symbol),
          g ≤ gapOf p.1 p.2) ∧
    (selectedPair agg symbol = none ↔
      ∀ p ∈ allPairs (agg.fomo_signals symbol) (agg.alpha_signals symbol),
        ¬ gapOf p.1 p.2 < agg.time_window) ∧
    (∀ e, (tryMatchConfluence agg now symbol).1 = some e →
      (tryMatchConfluence agg now symbol).2.fomo_signals symbol =
          (agg.fomo_signals symbol).erase e.fomo_signal ∧
      (tryMatchConfluence agg now symbol).2.alpha_signals symbol =
          (agg.alpha_signals symbol).erase e.alpha_signal) ∧
    (∀ f a g, selectedPair agg symbol = some (f, a, g) →
      calculateScore agg.time_window now f a g < agg.min_score →
      tryMatchConfluence agg now symbol = (none, agg)) ∧
    (∀ e (now2 : ℚ), (tryMatchConfluence agg now symbol).1 = some e →
      agg.fomo_signals symbol = [e.fomo_signal] →
      (tryMatchConfluence (tryMatchConfluence agg now symbol).2 now2 symbol).1 = none) := by
  refine ⟨?_, ?_, ?_, ?_, ?_, ?_⟩
  · constructor
    · intro hs
      rcases hsel : selectedPair agg symbol with _ | ⟨⟨f, a, g⟩⟩
      · rw [tryMatch_of_selected_none agg now symbol hsel] at hs
        simp at hs
      · by_cases hsc : calculateScore agg.time_window now f a g < agg.min_score
        · rw [tryMatch_of_selected_some_lt agg now symbol f a g hsel hsc] at hs
          simp at hs
        · exact ⟨f, a, g, rfl, not_lt.mp hsc⟩
    · rintro ⟨f, a, g, hsel, hge⟩
      rw [tryMatch_of_selected_some_ge agg now symbol f a g hsel (not_lt.mpr hge)]
      simp
  · intro f a g hsel
    obtain ⟨h1, h2, hf, ha⟩ := selectedPair_some_mem agg symbol f a g hsel
    exact ⟨h1, h2, mem_allPairs.mpr ⟨hf, ha⟩, selectedPair_some_min agg symbol f a g hsel⟩
  · exact selectedPair_none_iff agg symbol
  · intro e he
    rcases hsel : selectedPair agg symbol with _ | ⟨⟨f, a, g⟩⟩
    · rw [tryMatch_of_selected_none agg now symbol hsel] at he
      simp at he
    · by_cases hsc : calculateScore agg.time_window now f a g < agg.min_score
      · rw [tryMatch_of_selected_some_lt agg now symbol f a g hsel hsc] at he
        simp at he
      · have heq := tryMatch_of_selected_some_ge agg now symbol f a g hsel hsc
        rw [heq] at he
        simp only [Option.some.injEq] at he
        rw [heq, ← he]
        simp [updateBucket]
  · exact fun f a g hsel hsc => tryMatch_of_selected_some_lt agg now symbol f a g hsel hsc
  · intro e now2 he hfl
    rcases hsel : selectedPair agg symbol with _ | ⟨⟨f, a, g⟩⟩
    · rw [tryMatch_of_selected_none agg now symbol hsel] at he
      simp at he
    · by_cases hsc : calculateScore agg.time_window now f a g < agg.min_score
      · rw [tryMatch_of_selected_some_lt agg now symbol f a g hsel hsc] at he
        simp at he
      · have heq := tryMatch_of_selected_some_ge agg now symbol f a g hsel hsc
        rw [heq] at he
        simp only [Option.some.injEq] at he
        have hfomo : (tryMatchConfluence agg now symbol).2.fomo_signals symbol = [] := by
          rw [heq]
          simp only [updateBucket, if_pos rfl]
          rw [hfl, ← he]
          simp
        have hE : ((tryMatchConfluence agg now symbol).2.fomo_signals symbol).isEmpty ∨
            ((tryMatchConfluence agg now symbol).2.alpha_signals symbol).isEmpty := by
          rw [hfomo]
          exact Or.inl rfl
        rw [tryMatch_of_empty _ now2 symbol hE]

/-- The confluence event produced in the C1 demo scenario. -/
def demoConfC1 : ConfluenceSignal :=
  { symbol := "BTC", fomo_signal := demoFomoC1, alpha_signal := demoAlphaC1,
    confluence_time := 100, time_gap := 0, score := 0.94 }

/-- Witness for C1: on the one-pair aggregator the match succeeds, empties
the FOMO bucket so a repeated attempt returns none; on the stale
aggregator the selected pair scores below the threshold and nothing is
consumed. -/
theorem confluence_match_consume_spec_witness :
    (tryMatchConfluence demoAggC1 100 "BTC").2.fomo_signals "BTC" =
        (demoAggC1.fomo_signals "BTC").erase demoConfC1.fomo_signal ∧
    (tryMatchConfluence (tryMatchConfluence demoAggC1 100 "BTC").2 200 "BTC").1 = none ∧
    tryMatchConfluence demoAggLow 10000 "BTC" = (none, demoAggLow) := by
  have hsel : selectedPair demoAggC1 "BTC" = some (demoFomoC1, demoAlphaC1, 0) := by
    norm_num [selectedPair, bestMatch, allPairs, bestStep, gapOf,
      demoAggC1, demoFomoC1, demoAlphaC1]
  have hscore : ¬ calculateScore demoAggC1.time_window 100 demoFomoC1 demoAlphaC1 0 <
      demoAggC1.min_score := by
    norm_num [calculateScore, demoAggC1, demoFomoC1, demoAlphaC1, FOMO_INTENSIFY_TYPE]
  have he : (tryMatchConfluence demoAggC1 100 "BTC").1 = some demoConfC1 := by
    rw [tryMatch_of_selected_some_ge demoAggC1 100 "BTC" demoFomoC1 demoAlphaC1 0 hsel hscore]
    norm_num [demoConfC1, ConfluenceSignal.mk.injEq, calculateScore,
      demoAggC1, demoFomoC1, demoAlphaC1, FOMO_INTENSIFY_TYPE]
  have hselLow : selectedPair demoAggLow "BTC" = some (demoFomoLow, demoAlphaLow, 250) := by
    norm_num [selectedPair, bestMatch, allPairs, bestStep, gapOf,
      demoAggLow, demoFomoLow, demoAlphaLow]
  have hscoreLow : calculateScore demoAggLow.time_window 10000 demoFomoLow demoAlphaLow 250 <
      demoAggLow.min_score := by
    norm_num [calculateScore, demoAggLow, demoFomoLow, demoAlphaLow, FOMO_INTENSIFY_TYPE]
  refine ⟨?_, ?_, ?_⟩
  · exact ((confluence_match_consume_spec demoAggC1 100 "BTC").2.2.2.1 demoConfC1 he).1
  · exact (confluence_match_consume_spec demoAggC1 100 "BTC").2.2.2.2.2 demoConfC1 200 he
      (by simp [demoAggC1, demoConfC1])
  · exact (confluence_match_consume_spec demoAggLow 10000 "BTC").2.2.2.2.1
      demoFomoLow demoAlphaLow 250 hselLow hscoreLow

/-- Claim C2: every ConfluenceEvent the matcher returns is built from a
currently stored pair whose recorded `time_gap` is the pair's absolute
timestamp difference and lies strictly inside the window — hence, at any
wall-clock time and however long both have remained stored, a stored
(Opportunity, Sentiment) pair whose absolute timestamp difference is at
least the window width is never the pair a returned event is built
from. -/
theorem no_match_outside_window (agg : SignalAggregator) (now : ℚ)
    (symbol : String) :
    (∀ e, (tryMatchConfluence agg now symbol).1 = some e →
      e.time_gap = gapOf e.fomo_signal e.alpha_signal ∧
      e.time_gap < agg.time_window ∧
      e.fomo_signal ∈ agg.fomo_signals symbol ∧
      e.alpha_signal ∈ agg.alpha_signals symbol) ∧
    (∀ f a, f ∈ agg.fomo_signals symbol → a ∈ agg.alpha_signals symbol →
      agg.time_window ≤ gapOf f a →
      ¬ ∃ e, (tryMatchConfluence agg now symbol).1 = some e ∧
          e.fomo_signal = f ∧ e.alpha_signal = a) := by
  have hmain : ∀ e, (tryMatchConfluence agg now symbol).1 = some e →
      e.time_gap = gapOf e.fomo_signal e.alpha_signal ∧
      e.time_gap < agg.time_window ∧
      e.fomo_signal ∈ agg.fomo_signals symbol ∧
      e.alpha_signal ∈ agg.alpha_signals symbol := by
    intro e he
    rcases hsel : selectedPair agg symbol with _ | ⟨⟨f2, a2, g2⟩⟩
    · rw [tryMatch_of_selected_none agg now symbol hsel] at he
      simp at he
    · by_cases hsc : calculateScore agg.time_window now f2 a2 g2 < agg.min_score
      · rw [tryMatch_of_selected_some_lt agg now symbol f2 a2 g2 hsel hsc] at he
        simp at he
      · rw [tryMatch_of_selected_some_ge agg now symbol f2 a2 g2 hsel hsc] at he
        simp only [Option.some.injEq] at he
        obtain ⟨hg, hw, hf2, ha2⟩ := selectedPair_some_mem agg symbol f2 a2 g2 hsel
        subst he
        exact ⟨hg, hw, hf2, ha2⟩
  refine ⟨hmain, ?_⟩
  rintro f a _hf _ha hgap ⟨e, he, hef, hea⟩
  obtain ⟨hg, hlt, -, -⟩ := hmain e he
  rw [hef, hea] at hg
  rw [hg] at hlt
  exact absurd hgap (not_le.mpr hlt)

/-- Witness for C2: on the two-pair aggregator the matcher does return an
event — built from the 0-second pair, with its gap inside the window —
and the Alpha signal 350 seconds away from the FOMO signal can never be
part of a returned event. -/
theorem no_match_outside_window_witness :
    demoConfC1.time_gap < demoAggC2.time_window ∧
    demoConfC1.alpha_signal ∈ demoAggC2.alpha_signals "BTC" ∧
    ¬ ∃ e, (tryMatchConfluence demoAggC2 100 "BTC").1 = some e ∧
        e.fomo_signal = demoFomoC1 ∧ e.alpha_signal = demoAlphaFar := by
  have hsel2 : selectedPair demoAggC2 "BTC" = some (demoFomoC1, demoAlphaC1, 0) := by
    norm_num [selectedPair, bestMatch, allPairs, bestStep, gapOf,
      demoAggC2, demoFomoC1, demoAlphaC1, demoAlphaFar]
  have hscore2 : ¬ calculateScore demoAggC2.time_window 100 demoFomoC1 demoAlphaC1 0 <
      demoAggC2.min_score := by
    norm_num [calculateScore, demoAggC2, demoFomoC1, demoAlphaC1, FOMO_INTENSIFY_TYPE]
  have he : (tryMatchConfluence demoAggC2 100 "BTC").1 = some demoConfC1 := by
    rw [tryMatch_of_selected_some_ge demoAggC2 100 "BTC" demoFomoC1 demoAlphaC1 0 hsel2 hscore2]
    norm_num [demoConfC1, ConfluenceSignal.mk.injEq, calculateScore,
      demoAggC2, demoFomoC1, demoAlphaC1, FOMO_INTENSIFY_TYPE]
  refine ⟨?_, ?_, ?_⟩
  · exact ((no_match_outside_window demoAggC2 100 "BTC").1 demoConfC1 he).2.1
  · exact ((no_match_outside_window demoAggC2 100 "BTC").1 demoConfC1 he).2.2.2
  · exact (no_match_outside_window demoAggC2 100 "BTC").2 demoFomoC1 demoAlphaFar
      (by simp [demoAggC2]) (by simp [demoAggC2])
      (by norm_num [gapOf, demoAggC2, demoFomoC1, demoAlphaFar])

/-- Claim C3: adding a signal whose id is already in the processed-id
history is a no-op — no event is returned and the aggregator state,
including every per-symbol signal list, is unchanged. -/
theorem add_signal_duplicate_id_noop (agg : SignalAggregator) (now : ℚ)
    (message_type : ℤ) (message_id symbol data : String)
    (h : message_id ∈ agg.processed_signal_order) :
    addSignal agg now message_type message_id symbol data = (none, agg) := by
  simp only [addSignal]
  rw [if_pos h]

/-- Witness for C3: re-adding id "m1" to the demo aggregator is a no-op. -/
theorem add_signal_duplicate_id_noop_witness :
    addSignal demoAggC1 300 113 "m1" "BTC" "" = (none, demoAggC1) :=
  add_signal_duplicate_id_noop demoAggC1 300 113 "m1" "BTC" "" (by simp [demoAggC1])

/-! ## Claim C8: score monotonicity and bounds -/

/-- A FOMO signal timestamped two hours in the future of the evaluation
time, exhibiting a freshness above 1. -/
def futureFomo : Signal :=
  { signal_id := "f1", symbol := "BTC", signal_type := "FOMO",
    timestamp := 7200, message_type := 113, data := "" }

/-- An Alpha signal timestamped two hours in the future of the evaluation
time. -/
def futureAlpha : Signal :=
  { signal_id := "f2", symbol := "BTC", signal_type := "ALPHA",
    timestamp := 7200, message_type := 110, data := "" }

/-- Counterexample to C8 as stated: evaluated at wall-clock 0 on signals
timestamped 7200, the average age is negative, the freshness term is 3,
and the score is 1.54 > 1 — so the score is not bounded by 1 for every
input. -/
theorem score_bounds_counterexample :
    1 < calculateScore 300 0 futureFomo futureAlpha 0 := by
  norm_num [calculateScore, futureFomo, futureAlpha, FOMO_INTENSIFY_TYPE]

/-- Claim C8 (amended): for a positive window the score is monotonically
non-increasing in `time_gap` for fixed signals and evaluation time; the
score is always nonnegative; and it is at most 1 whenever neither
signal's timestamp lies in the future of the evaluation time. -/
theorem score_monotone_and_bounds :
    (∀ (tw now : ℚ) (fomo alpha : Signal) (g1 g2 : ℚ), 0 < tw → g1 ≤ g2 →
      calculateScore tw now fomo alpha g2 ≤ calculateScore tw now fomo alpha g1) ∧
    (∀ (tw now : ℚ) (fomo alpha : Signal) (g : ℚ),
      0 ≤ calculateScore tw now fomo alpha g) ∧
    (∀ (tw now : ℚ) (fomo alpha : Signal) (g : ℚ),
      fomo.timestamp ≤ now → alpha.timestamp ≤ now →
      calculateScore tw now fomo alpha g ≤ 1) := by
  refine ⟨?_, ?_, ?_⟩
  · intro tw now fomo alpha g1 g2 htw hg
    simp only [calculateScore]
    have hts : max 0 (min 1 (1 - g2 / tw)) ≤ max 0 (min 1 (1 - g1 / tw)) := by
      have hdiv : g1 / tw ≤ g2 / tw := by gcongr
      have : (1 : ℚ) - g2 / tw ≤ 1 - g1 / tw := by linarith
      exact max_le_max le_rfl (min_le_min le_rfl this)
    linarith
  · intro tw now fomo alpha g
    simp only [calculateScore]
    have hts : (0 : ℚ) ≤ max 0 (min 1 (1 - g / tw)) := le_max_left 0 _
    have hstr : (0.8 : ℚ) ≤ (if fomo.message_type = FOMO_INTENSIFY_TYPE then (1 : ℚ) else 0.8) := by
      split <;> norm_num
    have hfr : (0 : ℚ) ≤ 1 - min (((now - fomo.timestamp) + (now - alpha.timestamp)) / 2 / 3600) 1 := by
      have := min_le_right (((now - fomo.timestamp) + (now - alpha.timestamp)) / 2 / 3600) (1 : ℚ)
      linarith
    linarith
  · intro tw now fomo alpha g hfomo halpha
    simp only [calculateScore]
    have hts : max 0 (min 1 (1 - g / tw)) ≤ 1 :=
      max_le (by norm_num) (min_le_left 1 _)
    have hstr : (if fomo.message_type = FOMO_INTENSIFY_TYPE then (1 : ℚ) else 0.8) ≤ 1 := by
      split <;> norm_num
    have hage : (0 : ℚ) ≤ ((now - fomo.timestamp) + (now - alpha.timestamp)) / 2 / 3600 := by
      have h1 : (0 : ℚ) ≤ now - fomo.timestamp := by linarith
      have h2 : (0 : ℚ) ≤ now - alpha.timestamp := by linarith
      positivity
    have hfr : 1 - min (((now - fomo.timestamp) + (now - alpha.timestamp)) / 2 / 3600) 1 ≤ 1 := by
      have := le_min hage (by norm_num : (0 : ℚ) ≤ 1)
      linarith [this]
    linarith

/-- Witness for C8: at window 300 the score at gap 20 is at most the score
at gap 10, and for the in-the-past demo signals the score is within
bounds. -/
theorem score_monotone_and_bounds_witness :
    calculateScore 300 100 demoFomoC1 demoAlphaC1 20 ≤
        calculateScore 300 100 demoFomoC1 demoAlphaC1 10 ∧
    calculateScore 300 100 demoFomoC1 demoAlphaC1 10 ≤ 1 :=
  ⟨score_monotone_and_bounds.1 300 100 demoFomoC1 demoAlphaC1 10 20 (by norm_num) (by norm_num),
   score_monotone_and_bounds.2.2 300 100 demoFomoC1 demoAlphaC1 10
     (by norm_num [demoFomoC1]) (by norm_num [demoAlphaC1])⟩

/-! ## Claim C9: step rounding -/

/-- Claim C9: `_round_to_step` rounds 12.3456 down to the 0.01 step as
exactly 12.34 and 0.0031 up to the 0.001 step as exactly 0.004, with
exact (decimal) arithmetic. -/
theorem round_to_step_examples :
    roundToStep 12.3456 0.01 .down = 12.34 ∧
    roundToStep 0.0031 0.001 .up = 0.004 := by
  constructor
  · norm_num [roundToStep, ratTruncToZero]
  · have hc : ⌈(31 / 10 : ℚ)⌉ = 4 := by
      rw [Int.ceil_eq_iff]
      norm_num
    norm_num [roundToStep, ratAwayFromZero, hc]

/-! ## Claims C4 - C5: risk gatekeeper -/

/-- Claim C4: `can_open_position` performs its seven checks in the fixed
source order — halted; existing position; daily trade count; daily loss
(breach auto-halts as a side effect); balance known and positive; total
exposure; minimum reserve — and the first failing check short-circuits
with its reason: each of the seven conjuncts below fixes the reported
outcome when exactly the earlier checks pass, so an existing position
rejects even when every other limit passes, and approval is equivalent to
all seven checks passing with the state unchanged. -/
theorem can_open_position_check_order (rm : RiskManager) (today symbol : String) :
    (canOpenPosition rm today symbol = ((true, "OK"), rm) ↔
      (rm.trading_enabled = true ∧
       (rm.positions.lookup symbol).isSome = false ∧
       rm.daily_trades today < rm.max_daily_trades ∧
       ¬ rm.daily_pnl today < -(rm.total_balance * rm.max_daily_loss_percent / 100) ∧
       0 < rm.total_balance ∧
       totalPositionValue rm / rm.total_balance * 100 < rm.max_total_position_percent ∧
       rm.total_balance * 0.05 ≤ rm.available_balance)) ∧
    (rm.trading_enabled = false →
      canOpenPosition rm today symbol = ((false, "交易已暂停: " ++ rm.halt_reason), rm)) ∧
    (rm.trading_enabled = true → (rm.positions.lookup symbol).isSome = true →
      canOpenPosition rm today symbol = ((false, "已持有 " ++ symbol ++ " 仓位"), rm)) ∧
    (rm.trading_enabled = true → (rm.positions.lookup symbol).isSome = false →
      rm.max_daily_trades ≤ rm.daily_trades today →
      canOpenPosition rm today symbol =
        ((false, "达到每日交易次数限制 (" ++ toString rm.max_daily_trades ++ ")"), rm)) ∧
    (rm.trading_enabled = true → (rm.positions.lookup symbol).isSome = false →
      rm.daily_trades today < rm.max_daily_trades →
      rm.daily_pnl today < -(rm.total_balance * rm.max_daily_loss_percent / 100) →
      canOpenPosition rm today symbol =
          ((false, dailyLossReason rm), haltTrading rm (dailyLossReason rm)) ∧
        (haltTrading rm (dailyLossReason rm)).trading_enabled = false) ∧
    (rm.trading_enabled = true → (rm.positions.lookup symbol).isSome = false →
      rm.daily_trades today < rm.max_daily_trades →
      ¬ rm.daily_pnl today < -(rm.total_balance * rm.max_daily_loss_percent / 100) →
      rm.total_balance ≤ 0 →
      canOpenPosition rm today symbol = ((false, "账户余额不可用"), rm)) ∧
    (rm.trading_enabled = true → (rm.positions.lookup symbol).isSome = false →
      rm.daily_trades today < rm.max_daily_trades →
      ¬ rm.daily_pnl today < -(rm.total_balance * rm.max_daily_loss_percent / 100) →
      0 < rm.total_balance →
      rm.max_total_position_percent ≤ totalPositionValue rm / rm.total_balance * 100 →
      canOpenPosition rm today symbol =
        ((false, "达到总仓位限制 (" ++ toString (totalPositionValue rm / rm.total_balance * 100) ++ "% >= " ++ toString rm.max_total_position_percent ++ "%)"), rm)) ∧
    (rm.trading_enabled = true → (rm.positions.lookup symbol).isSome = false →
      rm.daily_trades today < rm.max_daily_trades →
      ¬ rm.daily_pnl today < -(rm.total_balance * rm.max_daily_loss_percent / 100) →
      0 < rm.total_balance →
      totalPositionValue rm / rm.total_balance * 100 < rm.max_total_position_percent →
      rm.available_balance < rm.total_balance * 0.05 →
      canOpenPosition rm today symbol = ((false, "可用余额不足"), rm)) := by
  refine ⟨?_, ?_, ?_, ?_, ?_, ?_, ?_, ?_⟩
  · constructor
    · intro h
      simp only [canOpenPosition] at h
      split_ifs at h with h1 h2 h3 h4 h5 h6 h7
      · exact absurd (congrArg (fun x => x.1.1) h) (by simp)
      · exact absurd (congrArg (fun x => x.1.1) h) (by simp)
      · exact absurd (congrArg (fun x => x.1.1) h) (by simp)
      · exact absurd (congrArg (fun x => x.1.1) h) (by simp)
      · exact absurd (congrArg (fun x => x.1.1) h) (by simp)
      · exact absurd (congrArg (fun x => x.1.1) h) (by simp)
      · exact absurd (congrArg (fun x => x.1.1) h) (by simp)
      · refine ⟨?_, ?_, ?_, h4, not_le.mp h5, not_le.mp h6, not_lt.mp h7⟩
        · exact Bool.not_eq_false _ ▸ h1
        · exact Bool.not_eq_true _ ▸ h2
        · exact not_le.mp h3
    · rintro ⟨h1, h2, h3, h4, h5, h6, h7⟩
      simp only [canOpenPosition]
      rw [if_neg (by simp [h1]), if_neg (by simp [h2]), if_neg (not_le.mpr h3),
        if_neg h4, if_neg (not_le.mpr h5), if_neg (not_le.mpr h6), if_neg (not_lt.mpr h7)]
  · intro h1
    simp only [canOpenPosition]
    rw [if_pos h1]
  · intro h1 h2
    simp only [canOpenPosition]
    rw [if_neg (by simp [h1]), if_pos h2]
  · intro h1 h2 h3
    simp only [canOpenPosition]
    rw [if_neg (by simp [h1]), if_neg (by simp [h2]), if_pos h3]
  · intro h1 h2 h3 h4
    refine ⟨?_, rfl⟩
    simp only [canOpenPosition]
    rw [if_neg (by simp [h1]), if_neg (by simp [h2]), if_neg (not_le.mpr h3), if_pos h4]
  · intro h1 h2 h3 h4 h5
    simp only [canOpenPosition]
    rw [if_neg (by simp [h1]), if_neg (by simp [h2]), if_neg (not_le.mpr h3),
      if_neg h4, if_pos h5]
  · intro h1 h2 h3 h4 h5 h6
    simp only [canOpenPosition]
    rw [if_neg (by simp [h1]), if_neg (by simp [h2]), if_neg (not_le.mpr h3),
      if_neg h4, if_neg (not_le.mpr h5), if_pos h6]
  · intro h1 h2 h3 h4 h5 h6 h7
    simp only [canOpenPosition]
    rw [if_neg (by simp [h1]), if_neg (by simp [h2]), if_neg (not_le.mpr h3),
      if_neg h4, if_neg (not_le.mpr h5), if_neg (not_le.mpr h6), if_pos h7]

/-- A held position used by the C4 witness. -/
def demoPos : PositionInfo :=
  { symbol := "BTC", quantity := 1, entry_price := 100,
    current_price := 100, entry_time := 0 }

/-- A healthy risk-manager state already holding a "BTC" position. -/
def demoRmHeld : RiskManager :=
  { max_position_percent := 10, max_total_position_percent := 50,
    max_daily_trades := 20, max_daily_loss_percent := 5,
    stop_loss_percent := 3, take_profit_1_percent := 5, take_profit_2_percent := 10,
    positions := [("BTC", demoPos)], total_balance := 10000,
    available_balance := 9000, daily_trades := fun _ => 0,
    daily_pnl := fun _ => 0, trading_enabled := true, halt_reason := "" }

/-- A position-free risk-manager state whose daily loss is breached. -/
def demoRmLoss : RiskManager :=
  { demoRmHeld with positions := [], daily_pnl := fun _ => -600 }

/-- A position-free risk-manager state with an unknown (zero) balance. -/
def demoRmZero : RiskManager :=
  { demoRmHeld with positions := [], total_balance := 0, available_balance := 0 }

/-- A 60-notional "ETH" position held against a 10000 balance. -/
def demoPosEth : PositionInfo :=
  { symbol := "ETH", quantity := 60, entry_price := 100,
    current_price := 100, entry_time := 0 }

/-- A risk-manager state whose open notional (60%) already exceeds the
total-exposure limit (50%), with no "BTC" position. -/
def demoRmExposed : RiskManager :=
  { demoRmHeld with positions := [("ETH", demoPosEth)] }

/-- A position-free risk-manager state whose available balance (400) is
below the 5% reserve of the 10000 total balance. -/
def demoRmReserve : RiskManager :=
  { demoRmHeld with positions := [], available_balance := 400 }

/-- Witness for C4: the held-position state is rejected with the
already-holding reason even though every other limit passes; the
breached-loss state is rejected with the daily-loss reason while trading
is auto-halted; and the zero-balance, over-exposed and reserve-short
states are rejected with the balance, total-exposure and reserve reasons
respectively. -/
theorem can_open_position_check_order_witness :
    canOpenPosition demoRmHeld "2026-10-12" "BTC" =
        ((false, "已持有 " ++ "BTC" ++ " 仓位"), demoRmHeld) ∧
    canOpenPosition demoRmLoss "2026-10-12" "BTC" =
        ((false, dailyLossReason demoRmLoss),
          haltTrading demoRmLoss (dailyLossReason demoRmLoss)) ∧
    (haltTrading demoRmLoss (dailyLossReason demoRmLoss)).trading_enabled = false ∧
    canOpenPosition demoRmZero "2026-10-12" "BTC" =
        ((false, "账户余额不可用"), demoRmZero) ∧
    canOpenPosition demoRmExposed "2026-10-12" "BTC" =
        ((false, "达到总仓位限制 (" ++ toString (totalPositionValue demoRmExposed / demoRmExposed.total_balance * 100) ++ "% >= " ++ toString demoRmExposed.max_total_position_percent ++ "%)"), demoRmExposed) ∧
    canOpenPosition demoRmReserve "2026-10-12" "BTC" =
        ((false, "可用余额不足"), demoRmReserve) :=
  ⟨(can_open_position_check_order demoRmHeld "2026-10-12" "BTC").2.2.1 rfl
      (by simp [demoRmHeld, List.lookup]),
   ((can_open_position_check_order demoRmLoss "2026-10-12" "BTC").2.2.2.2.1 rfl
      (by simp [demoRmLoss, demoRmHeld]) (by norm_num [demoRmLoss, demoRmHeld])
      (by norm_num [demoRmLoss, demoRmHeld])).1,
   ((can_open_position_check_order demoRmLoss "2026-10-12" "BTC").2.2.2.2.1 rfl
      (by simp [demoRmLoss, demoRmHeld]) (by norm_num [demoRmLoss, demoRmHeld])
      (by norm_num [demoRmLoss, demoRmHeld])).2,
   (can_open_position_check_order demoRmZero "2026-10-12" "BTC").2.2.2.2.2.1 rfl
      (by simp [demoRmZero, demoRmHeld]) (by norm_num [demoRmZero, demoRmHeld])
      (by norm_num [demoRmZero, demoRmHeld]) (by norm_num [demoRmZero, demoRmHeld]),
   (can_open_position_check_order demoRmExposed "2026-10-12" "BTC").2.2.2.2.2.2.1 rfl
      (by simp [demoRmExposed, demoRmHeld, demoPosEth, List.lookup])
      (by norm_num [demoRmExposed, demoRmHeld])
      (by norm_num [demoRmExposed, demoRmHeld])
      (by norm_num [demoRmExposed, demoRmHeld])
      (by norm_num [demoRmExposed, demoRmHeld, totalPositionValue, demoPosEth]),
   (can_open_position_check_order demoRmReserve "2026-10-12" "BTC").2.2.2.2.2.2.2 rfl
      (by simp [demoRmReserve, demoRmHeld])
      (by norm_num [demoRmReserve, demoRmHeld])
      (by norm_num [demoRmReserve, demoRmHeld])
      (by norm_num [demoRmReserve, demoRmHeld])
      (by norm_num [demoRmReserve, demoRmHeld, totalPositionValue])
      (by norm_num [demoRmReserve, demoRmHeld])⟩

/-- Claim C5: whenever `can_open_position` approves, the recommended
quantity at signal score 1 is exactly twice the quantity at signal score
0, by the `0.5 + 0.5 * score` scaling of the base position size. -/
theorem recommendation_score_doubles_quantity (rm : RiskManager)
    (today symbol : String) (current_price : ℚ)
    (h : (canOpenPosition rm today symbol).1.1 = true) :
    (generateTradeRecommendation rm today symbol current_price 1).1.quantity =
      2 * (generateTradeRecommendation rm today symbol current_price 0).1.quantity := by
  rcases hco : canOpenPosition rm today symbol with ⟨⟨can, reason⟩, rm1⟩
  rw [hco] at h
  simp only at h
  subst h
  simp only [generateTradeRecommendation, hco, Bool.true_eq_false, if_false]
  ring

/-- A healthy position-free risk-manager state that approves opening. -/
def demoRmOpen : RiskManager :=
  { demoRmHeld with positions := [] }

/-- Witness for C5: on the approving demo state at price 50, the score-1
quantity equals twice the score-0 quantity. -/
theorem recommendation_score_doubles_quantity_witness :
    (generateTradeRecommendation demoRmOpen "2026-10-12" "BTC" 50 1).1.quantity =
      2 * (generateTradeRecommendation demoRmOpen "2026-10-12" "BTC" 50 0).1.quantity :=
  recommendation_score_doubles_quantity demoRmOpen "2026-10-12" "BTC" 50
    (by norm_num [canOpenPosition, demoRmOpen, demoRmHeld, totalPositionValue])

/-! ## Claims C6 - C7: execution engine -/

/-- Counterexample to C6 as stated: when the venue order record reports an
executed quantity of 0 (e.g. a not-yet-filled verified order), the
position is recorded with the locally requested quantity 3.7, not the
venue-reported executed quantity. -/
theorem recorded_quantity_counterexample :
    executedQuantity { orderId := "1", status := "NEW", executedQty := some 0, origQty := some 5 } = 0 ∧
    recordedPositionQuantity { orderId := "1", status := "NEW", executedQty := some 0, origQty := some 5 } 3.7 = 3.7 ∧
    (3.7 : ℚ) ≠ 0 := by
  refine ⟨rfl, ?_, by norm_num⟩
  norm_num [recordedPositionQuantity, executedQuantity]

/-- Claim C6 (amended): the position is recorded with the venue-reported
executed quantity whenever that parses to a nonzero value; when it is zero
or missing (after the fallback through the order's original quantity), the
locally requested quantity is recorded instead. -/
theorem recorded_quantity_prefers_executed (order : FuturesOrder) (requested : ℚ) :
    (executedQuantity order ≠ 0 →
      recordedPositionQuantity order requested = executedQuantity order) ∧
    (executedQuantity order = 0 →
      recordedPositionQuantity order requested = requested) := by
  constructor
  · intro h
    simp [recordedPositionQuantity, h]
  · intro h
    simp [recordedPositionQuantity, h]

/-- Witness for C6: an order filled for 7 contracts is recorded with
quantity 7 even though 5 were requested. -/
theorem recorded_quantity_prefers_executed_witness :
    recordedPositionQuantity
        { orderId := "2", status := "FILLED", executedQty := some 7, origQty := some 7 } 5 =
      executedQuantity
        { orderId := "2", status := "FILLED", executedQty := some 7, origQty := some 7 } :=
  (recorded_quantity_prefers_executed
      { orderId := "2", status := "FILLED", executedQty := some 7, origQty := some 7 } 5).1
    (by norm_num [executedQuantity])

/-- Claim C7: a non-timeout error on any attempt aborts the open without
retry and without consulting the live position; a timeout on the first
attempt is retried; a timeout on the final attempt queries the live
position and, when a positive position exists, synthesizes a filled order
carrying the observed quantity and continues as a success; otherwise the
open fails. -/
theorem order_timeout_reconciliation :
    (∀ (a2 : OrderAttemptResult) (pq : Option ℚ) (req : ℚ),
      placeMarketBuyWithRetry .otherError a2 pq req = none) ∧
    (∀ (pq : Option ℚ) (req : ℚ),
      placeMarketBuyWithRetry .timeoutError .otherError pq req = none) ∧
    (∀ (o : FuturesOrder) (pq : Option ℚ) (req : ℚ),
      placeMarketBuyWithRetry .timeoutError (.success o) pq req = some o) ∧
    (∀ (q req : ℚ), 0 < q →
      placeMarketBuyWithRetry .timeoutError .timeoutError (some q) req =
          some (synthesizedTimeoutOrder q req) ∧
        (synthesizedTimeoutOrder q req).status = "FILLED" ∧
        executedQuantity (synthesizedTimeoutOrder q req) = q) ∧
    (∀ (req : ℚ), placeMarketBuyWithRetry .timeoutError .timeoutError none req = none) ∧
    (∀ (q req : ℚ), q ≤ 0 →
      placeMarketBuyWithRetry .timeoutError .timeoutError (some q) req = none) := by
  refine ⟨fun a2 pq req => rfl, fun pq req => rfl, fun o pq req => rfl, ?_, fun req => rfl, ?_⟩
  · intro q req hq
    refine ⟨?_, rfl, rfl⟩
    simp [placeMarketBuyWithRetry, hq]
  · intro q req hq
    simp [placeMarketBuyWithRetry, not_lt.mpr hq]

/-- Witness for C7: with both attempts timing out and a live position of 2
contracts, the synthesized order is returned; with a nonpositive live
position the open fails. -/
theorem order_timeout_reconciliation_witness :
    placeMarketBuyWithRetry .timeoutError .timeoutError (some 2) 3 =
        some (synthesizedTimeoutOrder 2 3) ∧
    placeMarketBuyWithRetry .timeoutError .timeoutError (some (-1)) 3 = none :=
  ⟨(order_timeout_reconciliation.2.2.2.1 2 3 (by norm_num)).1,
   order_timeout_reconciliation.2.2.2.2.2 (-1) 3 (by norm_num)⟩

/-! ## Claim C10: trailing stop -/

/-- First update of the C10 price path: price 100 at entry 100. -/
def c10Step1 : TrailingStopState × Bool :=
  trailingUpdatePrice { activation_percent := 2, callback_percent := 1.5 }
    (trailingAddPosition 100 100) 100

/-- Second update: price 103 arms the tracker. -/
def c10Step2 : TrailingStopState × Bool :=
  trailingUpdatePrice { activation_percent := 2, callback_percent := 1.5 } c10Step1.1 103

/-- Third update: price 101.4 hits the trailing price. -/
def c10Step3 : TrailingStopState × Bool :=
  trailingUpdatePrice { activation_percent := 2, callback_percent := 1.5 } c10Step2.1 101.4

/-- Claim C10: on the price path 100 → 103 → 101.4 with entry 100,
activation 2% and callback 1.5%, the tracker stays un-armed at 100, arms
at 103 with high-water 103 and trailing price 101.455, triggers the close
at 101.4, and while armed the trailing price never decreases. -/
theorem trailing_stop_scenario :
    (c10Step1.1.activated = false ∧ c10Step1.2 = false) ∧
    (c10Step2.1.activated = true ∧ c10Step2.1.highest_price = 103 ∧
      c10Step2.1.trailing_price = 101.455 ∧ c10Step2.2 = false) ∧
    c10Step3.2 = true ∧
    (∀ (p : TrailingStopParams) (st : TrailingStopState) (price : ℚ),
      st.activated = true →
      st.trailing_price ≤ (trailingUpdatePrice p st price).1.trailing_price) := by
  refine ⟨?_, ?_, ?_, ?_⟩
  · constructor
    · norm_num [c10Step1, trailingUpdatePrice, trailingAddPosition]
    · norm_num [c10Step1, trailingUpdatePrice, trailingAddPosition]
  · refine ⟨?_, ?_, ?_, ?_⟩ <;>
      norm_num [c10Step2, c10Step1, trailingUpdatePrice, trailingAddPosition]
  · norm_num [c10Step3, c10Step2, c10Step1, trailingUpdatePrice, trailingAddPosition]
  · intro p st price hact
    simp only [trailingUpdatePrice, hact, if_true]
    exact le_max_left _ _

/-- Witness for C10: an armed tracker at trailing price 101.455 never
lowers its trailing price on an update. -/
theorem trailing_stop_scenario_witness :
    (101.455 : ℚ) ≤
      (trailingUpdatePrice { activation_percent := 2, callback_percent := 1.5 }
        { entry_price := 100, highest_price := 103, activated := true,
          trailing_price := 101.455 } 101.4).1.trailing_price :=
  trailing_stop_scenario.2.2.2
    { activation_percent := 2, callback_percent := 1.5 }
    { entry_price := 100, highest_price := 103, activated := true, trailing_price := 101.455 }
    101.4 rfl

end ValueScan
